import Mathlib

/-!
Verification of the Autoterm heater passthrough engine
(`autoterm_heater.py`): framing codec (CRC-16, build, parse), the
per-side stream reassembly loop, the semantic decoder with its
write-lock rule, the injection queue, and the host API facade.

Bytes are modelled as natural numbers below 256, byte strings as
`List Nat`, wall-clock times (`time.time()` values) as rationals.
-/

/-- One shift round of the CRC loop body: if the low bit is set,
shift right and xor with the Modbus polynomial `0xA001`, else just
shift right (lines 32-37 of the source). -/
def crcRound (crc : Nat) : Nat :=
  if crc % 2 = 1 then Nat.xor (crc / 2) 0xa001 else crc / 2

/-- Absorb one byte into the running CRC: xor it in, then run eight
shift rounds (lines 30-37). -/
def crcByte (crc b : Nat) : Nat :=
  crcRound^[8] (Nat.xor crc b)

/-- `AutotermUtils.crc16` as a number: fold the bytes over an initial
value `0xFFFF` (lines 28-37). -/
def crc16 (package : List Nat) : Nat :=
  package.foldl crcByte 0xffff

/-- The two CRC bytes emitted on the wire: `crc.to_bytes` with length 2, byteorder big,
i.e. high byte first (line 38). -/
def crc16bytes (package : List Nat) : List Nat :=
  [crc16 package / 256, crc16 package % 256]

/-- The `Message` record returned by a successful parse (lines 18-25). -/
structure Message where
  preamble : Nat
  device : Nat
  length : Nat
  msg_id1 : Nat
  msg_id2 : Nat
  payload : List Nat
deriving DecidableEq, Repr

/-- The CRC-less frame assembled by `build` (line 75): preamble,
device, payload length, id1, id2, payload. -/
def buildFrame (device msg_id1 msg_id2 : Nat) (payload : List Nat) : List Nat :=
  0xaa :: device :: payload.length :: msg_id1 :: msg_id2 :: payload

/-- `AutotermUtils.build` (lines 64-77).  Returns `none` for the
paths where the Python code returns the error value `0` (bad device,
id out of byte range); a payload longer than 255 makes
`len(payload).to_bytes(1, ...)` raise `OverflowError`, also modelled
as `none`. -/
def build (device msg_id2 : Nat) (msg_id1 : Nat := 0x00) (payload : List Nat := []) :
    Option (List Nat) :=
  if device ∈ [0x00, 0x02, 0x03, 0x04] then
    if msg_id1 < 256 then
      if msg_id2 < 256 then
        if payload.length ≤ 255 then
          some (buildFrame device msg_id1 msg_id2 payload ++
                crc16bytes (buildFrame device msg_id1 msg_id2 payload))
        else none
      else none
    else none
  else none

/-- The `while package[0] != 0xaa` loop of `parse` (lines 44-48):
drop leading bytes until the preamble leads, failing when the
remaining package is shorter than `minPacketSize` before a drop. -/
def seekPreamble (minPacketSize : Nat) : List Nat → Option (List Nat)
  | [] => none
  | b :: rest =>
    if b = 0xaa then some (b :: rest)
    else if (b :: rest).length < minPacketSize then none
    else seekPreamble minPacketSize rest

/-- `AutotermUtils.parse` (lines 40-62): length precheck, preamble
seek, exact length check against the length field, device-code check,
CRC check over all but the last two bytes, then the `Message` built
from fields 0-4 and the slice `package[5:-2]`. -/
def parse (package : List Nat) (minPacketSize : Nat := 7) : Option Message :=
  if package.length < minPacketSize then none
  else
    match seekPreamble minPacketSize package with
    | none => none
    | some pkg =>
      if pkg.getD 0 0 ≠ 0xaa then none
      else if pkg.length ≠ pkg.getD 2 0 + minPacketSize then none
      else if pkg.getD 1 0 ∉ [0x00, 0x02, 0x03, 0x04] then none
      else if pkg.drop (pkg.length - 2) ≠ crc16bytes (pkg.take (pkg.length - 2)) then none
      else some ⟨pkg.getD 0 0, pkg.getD 1 0, pkg.getD 2 0, pkg.getD 3 0, pkg.getD 4 0,
                 (pkg.drop 5).take (pkg.length - 7)⟩

/-- `int.from_bytes` with byteorder big: fold the byte list big-endian into a
number. -/
def intFromBytesBE (l : List Nat) : Nat :=
  l.foldl (fun a b => a * 256 + b) 0

/-- A timestamped register: the Python code stores `(None, None)`
initially and `(value, time.time())` after an update. -/
abbrev TimeVal (α : Type) := Option α × Option ℚ

/-- The mutable state of `AutotermPassthrough` that the worker thread
and the host API read and write: the write-lock deadline, the
injection queue `__send_to_heater`, the role bindings (`true` for
side 1, `false` for side 2), the auto-off timer, the shutdown
request/timer pair, the poll timers, and the timestamped registers
initialised in `__start_working` (lines 163-221). -/
structure EngineState where
  write_lock_timer : ℚ
  send_to_heater : List (List Nat)
  ser_heater : Option Bool
  ser_controller : Option Bool
  heater_timer : Option ℚ
  shutdown_request : Bool
  shutdown_timer : ℚ
  settings_timer : ℚ
  status_timer : ℚ
  heater_software_version : Option Nat × Option Nat × Option Nat × Option Nat × Option ℚ
  heater_mode : TimeVal Nat
  heater_setpoint : TimeVal Nat
  heater_ventilation : TimeVal Nat
  heater_power_level : TimeVal Nat
  heater_status1 : TimeVal Nat
  heater_status2 : TimeVal Nat
  heater_errors : TimeVal Nat
  heater_temperature : TimeVal Nat
  external_temperature : TimeVal Nat
  battery_voltage : TimeVal ℚ
  flame_temperature : TimeVal Nat
  controller_temperature : TimeVal Nat
  d_status1 : TimeVal Nat
  d_status2 : TimeVal Nat
  d_counter1 : TimeVal Nat
  d_counter2 : TimeVal Nat
  d_defined_rev : TimeVal Nat
  d_measured_rev : TimeVal Nat
  d_fuel_pump1 : TimeVal Nat
  d_fuel_pump2 : TimeVal Nat
  d_chamber_temperature : TimeVal Nat
  d_flame_temperature : TimeVal Nat
  d_external_temperature : TimeVal Nat
  d_heater_temperature : TimeVal Nat
  d_battery_voltage : TimeVal Nat
deriving DecidableEq

/-- The engine state right after `__connect` (lines 140-141) and
`__start_working` (lines 163-221) at time `t`: all registers
`(None, None)`, empty injection queue, unbound roles, write-lock and
poll timers set to `t`. -/
def initial_state (t : ℚ) : EngineState where
  write_lock_timer := t
  send_to_heater := []
  ser_heater := none
  ser_controller := none
  heater_timer := none
  shutdown_request := false
  shutdown_timer := t
  settings_timer := t
  status_timer := t
  heater_software_version := (none, none, none, none, none)
  heater_mode := (none, none)
  heater_setpoint := (none, none)
  heater_ventilation := (none, none)
  heater_power_level := (none, none)
  heater_status1 := (none, none)
  heater_status2 := (none, none)
  heater_errors := (none, none)
  heater_temperature := (none, none)
  external_temperature := (none, none)
  battery_voltage := (none, none)
  flame_temperature := (none, none)
  controller_temperature := (none, none)
  d_status1 := (none, none)
  d_status2 := (none, none)
  d_counter1 := (none, none)
  d_counter2 := (none, none)
  d_defined_rev := (none, none)
  d_measured_rev := (none, none)
  d_fuel_pump1 := (none, none)
  d_fuel_pump2 := (none, none)
  d_chamber_temperature := (none, none)
  d_flame_temperature := (none, none)
  d_external_temperature := (none, none)
  d_heater_temperature := (none, none)
  d_battery_voltage := (none, none)

/-- The `device == 0x02` branch of `__process_message`
(lines 244-265): a 72-byte diagnostic dump from the heater updates
the thirteen diagnostic registers; everything else only logs. -/
def dispatch02 (s : EngineState) (t : ℚ) (m : Message) : EngineState :=
  if m.msg_id2 = 0x00 then s
  else if m.msg_id2 = 0x01 then
    if m.payload.length = 72 then
      { s with
        d_status1 := (some (m.payload.getD 0 0), some t)
        d_status2 := (some (m.payload.getD 1 0), some t)
        d_counter1 := (some (intFromBytesBE ((m.payload.drop 7).take 2)), some t)
        d_counter2 := (some (intFromBytesBE ((m.payload.drop 10).take 2)), some t)
        d_defined_rev := (some (m.payload.getD 12 0), some t)
        d_measured_rev := (some (m.payload.getD 13 0), some t)
        d_fuel_pump1 := (some (m.payload.getD 15 0), some t)
        d_fuel_pump2 := (some (m.payload.getD 17 0), some t)
        d_chamber_temperature := (some (intFromBytesBE ((m.payload.drop 19).take 2)), some t)
        d_flame_temperature := (some (intFromBytesBE ((m.payload.drop 21).take 2)), some t)
        d_external_temperature := (some (m.payload.getD 25 0), some t)
        d_heater_temperature := (some (m.payload.getD 26 0), some t)
        d_battery_voltage := (some (m.payload.getD 28 0), some t) }
    else s
  else s

/-- The `device == 0x03` branch of `__process_message` after the
write-lock has been armed (lines 271-312): turn-on, settings-set and
turn-off clear the auto-off timer; a length-1 `0x11` payload updates
the controller temperature; all other ids only log.  The write-lock
field is not touched here. -/
def dispatch03 (s : EngineState) (t : ℚ) (m : Message) : EngineState :=
  if m.msg_id2 = 0x01 then { s with heater_timer := none }
  else if m.msg_id2 = 0x02 then
    if m.length = 0 then s else { s with heater_timer := none }
  else if m.msg_id2 = 0x03 then { s with heater_timer := none }
  else if m.msg_id2 = 0x04 then s
  else if m.msg_id2 = 0x06 then s
  else if m.msg_id2 = 0x0f then s
  else if m.msg_id2 = 0x11 then
    if m.payload.length = 1 then
      { s with controller_temperature := (some (m.payload.getD 0 0), some t) }
    else s
  else if m.msg_id2 = 0x1c then s
  else if m.msg_id2 = 0x23 then s
  else s

/-- The `device == 0x04` branch of `__process_message` after the
write-lock has been cleared (lines 318-385): settings replies
(length 6) update the four settings registers and reset the settings
timer; a software-version reply (length 5) updates the version
tuple; a status reply (length 10) updates the seven status registers
and resets the status timer; the rest only log.  The write-lock
field is not touched here. -/
def dispatch04 (s : EngineState) (t : ℚ) (m : Message) : EngineState :=
  if m.msg_id2 = 0x01 ∨ m.msg_id2 = 0x02 then
    let s1 :=
      if m.payload.length = 6 then
        { s with
          heater_mode := (some (m.payload.getD 2 0), some t)
          heater_setpoint := (some (m.payload.getD 3 0), some t)
          heater_ventilation := (some (m.payload.getD 4 0), some t)
          heater_power_level := (some (m.payload.getD 5 0), some t) }
      else s
    { s1 with settings_timer := t }
  else if m.msg_id2 = 0x03 then s
  else if m.msg_id2 = 0x04 then s
  else if m.msg_id2 = 0x06 then
    if m.payload.length = 5 then
      { s with heater_software_version :=
          (some (m.payload.getD 0 0), some (m.payload.getD 1 0),
           some (m.payload.getD 2 0), some (m.payload.getD 3 0), some t) }
    else s
  else if m.msg_id2 = 0x0f then
    let s1 :=
      if m.payload.length = 10 then
        { s with
          heater_status1 := (some (m.payload.getD 0 0), some t)
          heater_status2 := (some (m.payload.getD 1 0), some t)
          heater_errors := (some (m.payload.getD 2 0), some t)
          heater_temperature := (some (m.payload.getD 3 0), some t)
          external_temperature := (some (m.payload.getD 4 0), some t)
          battery_voltage := (some ((m.payload.getD 6 0 : ℚ) / 10), some t)
          flame_temperature := (some (intFromBytesBE ((m.payload.drop 7).take 2)), some t) }
      else s
    { s1 with status_timer := t }
  else if m.msg_id2 = 0x11 then s
  else if m.msg_id2 = 0x1c then s
  else if m.msg_id2 = 0x23 then s
  else s

/-- `AutotermPassthrough.__process_message` (lines 227-390) at host
time `t`.  A frame that fails to parse leaves the state unchanged
(Python returns 0).  Otherwise the unbound role slots may latch onto
`side` (lines 234-237); the controller branch arms the write-lock to
`t + 10` (line 270 with `__write_lock_delay = 10`), the heater branch
resets it to `t` (line 317), then the per-device dispatch runs. -/
def process_message (s : EngineState) (t : ℚ) (message : List Nat) (side : Bool) :
    EngineState :=
  match parse message 7 with
  | none => s
  | some m =>
    let s1 := if s.ser_controller = none ∧ m.device = 0x03 then
      { s with ser_controller := some side } else s
    let s2 := if s1.ser_heater = none ∧ m.device = 0x04 then
      { s1 with ser_heater := some side } else s1
    if m.device = 0x00 then s2
    else if m.device = 0x02 then dispatch02 s2 t m
    else if m.device = 0x03 then dispatch03 { s2 with write_lock_timer := t + 10 } t m
    else if m.device = 0x04 then dispatch04 { s2 with write_lock_timer := t } t m
    else s2

/-- The per-side read/forward part of `__worker_thread`
(lines 400-415) run to exhaustion on the input buffer of one side:
each iteration reads one byte; `0x1B` is forwarded alone; any other
non-`0xAA` byte triggers `reset_input_buffer()`, discarding the whole
remaining buffer; on `0xAA` two header bytes and then
`message[-1] + 4` further bytes are read and the whole candidate
frame is forwarded and handed to `__process_message`.  Returns the
bytes forwarded to the other side and the frames handed to the
decoder, in order. -/
def workerSideSteps : Nat → List Nat → List Nat × List (List Nat)
  | 0, _ => ([], [])
  | _ + 1, [] => ([], [])
  | fuel + 1, b :: rest =>
    if b = 0x1b then
      let r := workerSideSteps fuel rest
      (b :: r.1, r.2)
    else if b ≠ 0xaa then ([], [])
    else
      let msg1 := b :: rest.take 2
      let buf2 := rest.drop 2
      let msg := msg1 ++ buf2.take (msg1.getLastD 0 + 4)
      let r := workerSideSteps fuel (buf2.drop (msg1.getLastD 0 + 4))
      (msg ++ r.1, msg :: r.2)

/-- Run the per-side loop until the buffer is drained.  Each
iteration consumes at least one byte, so `buf.length` steps always
suffice. -/
def workerSideRun (buf : List Nat) : List Nat × List (List Nat) :=
  workerSideSteps buf.length buf

/-- Outcome of one `serial.write` call as seen by `__write_message`
(lines 104-110): full write, short write (logged critical), or a
`SerialException` (logged critical, engine marked disconnected).  In
every case the caller continues and the frame is not retried. -/
inductive WriteOutcome where
  | ok
  | shortWrite
  | exn
deriving DecidableEq, Repr

/-- The injection block of the worker loop (lines 434-443): if the
queue is non-empty and the write-lock deadline has passed, pop the
head, write it to the heater side if bound (one write attempt,
outcome `o1`) or to both sides otherwise (attempts `o1`, `o2`), and
re-arm the write-lock to `t + 10`.  Returns the new state and the
list of `(frame, outcome)` write attempts. -/
def injectDispatch (s : EngineState) (t : ℚ) (o1 o2 : WriteOutcome) :
    EngineState × List (List Nat × WriteOutcome) :=
  if s.send_to_heater ≠ [] ∧ s.write_lock_timer ≤ t then
    let msg := s.send_to_heater.headD []
    let s1 := { s with send_to_heater := s.send_to_heater.tail,
                       write_lock_timer := t + 10 }
    match s.ser_heater with
    | some _ => (s1, [(msg, o1)])
    | none => (s1, [(msg, o1), (msg, o2)])
  else (s, [])

/-- State effect of the injection block (independent of the write
outcomes). -/
def injectState (s : EngineState) (t : ℚ) : EngineState :=
  (injectDispatch s t .ok .ok).1

/-- The host frames the injection block writes at time `t`. -/
def injectWrites (s : EngineState) (t : ℚ) : List (List Nat) :=
  (injectDispatch s t .ok .ok).2.map Prod.fst

/-- An observable worker event: a candidate frame read from one side
and handed to `__process_message`, or one pass through the injection
block. -/
inductive WEvent where
  | recv (side : Bool) (frame : List Nat)
  | inject
deriving DecidableEq

/-- State transition for one timestamped worker event. -/
def engineStep (s : EngineState) (e : ℚ × WEvent) : EngineState :=
  match e.2 with
  | .recv side frame => process_message s e.1 frame side
  | .inject => injectState s e.1

/-- Run a list of timestamped worker events from a state. -/
def runEvents (s : EngineState) (es : List (ℚ × WEvent)) : EngineState :=
  es.foldl engineStep s

/-- Whether a worker event is the observation of a parsed
heater-origin frame (device `0x04`). -/
def heaterRecv : WEvent → Bool
  | .recv _ frame =>
    match parse frame 7 with
    | some m => m.device = 0x04
    | none => false
  | .inject => false

/-- The module-level `status_text` dictionary (line 16), as a lookup
function.  Note the source spells entry 4 `shuting down`. -/
def status_text : Nat → Option String
  | 0 => some "heater off"
  | 1 => some "starting"
  | 2 => some "warming up"
  | 3 => some "running"
  | 4 => some "shuting down"
  | _ => none

/-- `get_heater_status_text` (lines 529-533): look `status1` up in
`status_text`, falling back to the fixed string when the stored value
is not a key (including the initial `None`). -/
def get_heater_status_text (s : EngineState) : String :=
  match s.heater_status1.1 with
  | some v => (status_text v).getD "unknown status"
  | none => "unknown status"

/-- `set_heater_timer` (lines 468-469): store
`time.time() + timer * 60`. -/
def set_heater_timer (s : EngineState) (t : ℚ) (timer : ℚ) : EngineState :=
  { s with heater_timer := some (t + timer * 60) }

/-- The private attributes ever assigned on an `AutotermPassthrough`
object (by `__init__`, `__connect`, `__start_working` and the
methods), before Python name mangling.  `__heater` is not among
them: line 467 reads `self.__heater.timer`, so `get_heater_timer`
raises `AttributeError` on every call. -/
def assignedEngineAttrs : List String :=
  ["port1", "baudrate1", "port2", "baudrate2", "serial_num", "logger",
   "__connected", "__working", "__ser1", "__ser2",
   "__write_lock_timer", "__write_lock_delay",
   "__ser_heater", "__ser_controller",
   "__send_to_heater", "__heater_timer",
   "__shutdown_request", "__shutdown_timer", "__shutdown_delay",
   "__heater_software_version",
   "__settings_timer", "__settings_delay",
   "__heater_mode", "__heater_setpoint", "__heater_ventilation",
   "__heater_power_level",
   "__status_timer", "__status_delay",
   "__heater_status1", "__heater_status2", "__heater_errors",
   "__heater_temperature", "__external_temperature",
   "__battery_voltage", "__flame_temperature",
   "__controller_temperature",
   "__d_status1", "__d_status2", "__d_counter1", "__d_counter2",
   "__d_defined_rev", "__d_measured_rev",
   "__d_fuel_pump1", "__d_fuel_pump2",
   "__d_chamber_temperature", "__d_flame_temperature",
   "__d_external_temperature", "__d_heater_temperature",
   "__d_battery_voltage",
   "__worker_thread"]

/-- `get_heater_timer` (lines 466-467): `return self.__heater.timer`.
The attribute read succeeds only if `__heater` was ever assigned on
the object; it never is, so the call raises `AttributeError` instead
of returning the `__heater_timer` register. -/
def get_heater_timer (s : EngineState) : Except String (Option ℚ) :=
  if "__heater" ∈ assignedEngineAttrs then .ok s.heater_timer
  else .error "AttributeError"

/-- `turn_on_heater` (lines 481-489): an optional (truthy) timer arms
the auto-off deadline; the payload is
`FF FF mode setpoint ventilation power`; a successful build of a
`03/01` frame is appended to the injection queue twice.  The
`to_bytes(1, ...)` calls constrain the four arguments to byte range;
the model is used only there. -/
def turn_on_heater (s : EngineState) (t : ℚ)
    (mode : Nat) (setpoint : Nat := 0x0f) (ventilation : Nat := 0x00)
    (power : Nat := 0x00) (timer : Option ℚ := none) : EngineState :=
  let s1 := match timer with
    | some tm => if tm ≠ 0 then { s with heater_timer := some (t + tm * 60) } else s
    | none => s
  match build 0x03 0x01 0x00 [0xff, 0xff, mode, setpoint, ventilation, power] with
  | some msg => { s1 with send_to_heater := s1.send_to_heater ++ [msg, msg] }
  | none => s1

/-- `change_settings` (lines 490-498): same payload shape as
`turn_on_heater` but id2 `0x02`; also enqueued twice. -/
def change_settings (s : EngineState) (t : ℚ)
    (mode : Nat) (setpoint : Nat := 0x0f) (ventilation : Nat := 0x00)
    (power : Nat := 0x00) (timer : Option ℚ := none) : EngineState :=
  let s1 := match timer with
    | some tm => if tm ≠ 0 then { s with heater_timer := some (t + tm * 60) } else s
    | none => s
  match build 0x03 0x02 0x00 [0xff, 0xff, mode, setpoint, ventilation, power] with
  | some msg => { s1 with send_to_heater := s1.send_to_heater ++ [msg, msg] }
  | none => s1

/-- `turn_on_ventilation` (lines 472-480): payload
`FF FF power 0F`, id2 `0x23`, enqueued twice. -/
def turn_on_ventilation (s : EngineState) (t : ℚ)
    (power : Nat) (timer : Option ℚ := none) : EngineState :=
  let s1 := match timer with
    | some tm => if tm ≠ 0 then { s with heater_timer := some (t + tm * 60) } else s
    | none => s
  match build 0x03 0x23 0x00 [0xff, 0xff, power, 0x0f] with
  | some msg => { s1 with send_to_heater := s1.send_to_heater ++ [msg, msg] }
  | none => s1

/-- `asks_for_status` (lines 523-526): a `03/0F` poll, enqueued
once. -/
def asks_for_status (s : EngineState) : EngineState :=
  match build 0x03 0x0f 0x00 [] with
  | some msg => { s with send_to_heater := s.send_to_heater ++ [msg] }
  | none => s

/-- `asks_for_settings` (lines 509-512): a `03/02` poll, enqueued
once. -/
def asks_for_settings (s : EngineState) : EngineState :=
  match build 0x03 0x02 0x00 [] with
  | some msg => { s with send_to_heater := s.send_to_heater ++ [msg] }
  | none => s

/-- `diagnostic_on` (lines 560-564): `03/07` with payload `01`,
enqueued once. -/
def diagnostic_on (s : EngineState) : EngineState :=
  match build 0x03 0x07 0x00 [0x01] with
  | some msg => { s with send_to_heater := s.send_to_heater ++ [msg] }
  | none => s

/-- `diagnostic_off` (lines 565-569): `03/07` with payload `00`,
enqueued once. -/
def diagnostic_off (s : EngineState) : EngineState :=
  match build 0x03 0x07 0x00 [0x00] with
  | some msg => { s with send_to_heater := s.send_to_heater ++ [msg] }
  | none => s

set_option maxRecDepth 40000

/-- Helper: the two CRC bytes always form a two-byte list. -/
theorem crc16bytes_length (l : List Nat) : (crc16bytes l).length = 2 := rfl

/-- Helper: the CRC-less part of a built frame has five header bytes
plus the payload. -/
theorem buildFrame_length (device msg_id1 msg_id2 : Nat) (payload : List Nat) :
    (buildFrame device msg_id1 msg_id2 payload).length = payload.length + 5 := by
  simp [buildFrame]

/-- C1: round-trip of the framing codec.  For every device code in
the recognised set, ids in byte range and payload of at most 255
bytes, `build` succeeds and `parse` of the built frame succeeds,
recovering the device, both ids and the payload exactly. -/
theorem parse_build_roundtrip (D id1 id2 : Nat) (P : List Nat)
    (hD : D ∈ [0x00, 0x02, 0x03, 0x04]) (h1 : id1 < 256) (h2 : id2 < 256)
    (hP : P.length ≤ 255) :
    build D id2 id1 P = some (buildFrame D id1 id2 P ++ crc16bytes (buildFrame D id1 id2 P)) ∧
    parse (buildFrame D id1 id2 P ++ crc16bytes (buildFrame D id1 id2 P)) 7 =
      some ⟨0xaa, D, P.length, id1, id2, P⟩ := by
  refine ⟨by simp [build, hD, h1, h2, hP], ?_⟩
  set c := crc16bytes (buildFrame D id1 id2 P) with hcdef
  have hc2 : c.length = 2 := hcdef ▸ crc16bytes_length _
  set pkg := 0xaa :: D :: P.length :: id1 :: id2 :: (P ++ c) with hpkg
  have hF : buildFrame D id1 id2 P ++ c = pkg := by simp [buildFrame, hpkg]
  have hbl : (buildFrame D id1 id2 P).length = P.length + 5 := buildFrame_length ..
  have hplen : pkg.length = P.length + 7 := by
    rw [← hF, List.length_append, hbl, hc2]
  have g0 : pkg.getD 0 0 = 0xaa := by rw [hpkg]; rfl
  have g1 : pkg.getD 1 0 = D := by rw [hpkg]; rfl
  have g2 : pkg.getD 2 0 = P.length := by rw [hpkg]; rfl
  have g3 : pkg.getD 3 0 = id1 := by rw [hpkg]; rfl
  have g4 : pkg.getD 4 0 = id2 := by rw [hpkg]; rfl
  have hseek : seekPreamble 7 pkg = some pkg := by rw [hpkg]; simp [seekPreamble]
  have htake : pkg.take (pkg.length - 2) = buildFrame D id1 id2 P := by
    rw [hplen, ← hF]
    exact List.take_left' (by rw [hbl]; omega)
  have hdropc : pkg.drop (pkg.length - 2) = c := by
    rw [hplen, ← hF]
    exact List.drop_left' (by rw [hbl]; omega)
  have hcrc : pkg.drop (pkg.length - 2) = crc16bytes (pkg.take (pkg.length - 2)) := by
    rw [hdropc, htake, ← hcdef]
  have hdrop5 : pkg.drop 5 = P ++ c := by rw [hpkg]; rfl
  have hpay : (pkg.drop 5).take (pkg.length - 7) = P := by
    rw [hdrop5, hplen]
    exact List.take_left' (by omega)
  rw [hF, parse.eq_def]
  rw [if_neg (by rw [hplen]; omega)]
  simp only [hseek]
  rw [if_neg (by rw [g0]; simp)]
  rw [if_neg (by rw [hplen, g2]; simp)]
  rw [if_neg (by rw [g1]; simp only [not_not]; exact hD)]
  rw [if_neg (by rw [hcrc]; simp)]
  rw [g0, g1, g2, g3, g4, hpay]

/-- C1 witness: the round-trip at the concrete ask-status frame. -/
theorem parse_build_roundtrip_witness :
    build 0x03 0x0f 0x00 [] =
      some (buildFrame 0x03 0x00 0x0f [] ++ crc16bytes (buildFrame 0x03 0x00 0x0f [])) ∧
    parse (buildFrame 0x03 0x00 0x0f [] ++ crc16bytes (buildFrame 0x03 0x00 0x0f [])) 7 =
      some ⟨0xaa, 0x03, 0, 0x00, 0x0f, []⟩ :=
  parse_build_roundtrip 0x03 0x00 0x0f [] (by decide) (by decide) (by decide) (by decide)

/-- C3 counterexample: with the buffer of side A holding
`FF FF AA 04 00 00 0F <CRC>` (whose suffix is a valid status-ack
frame, first conjunct), the worker forwards nothing at all to side B
and hands nothing to the decoder: reading the first `FF` triggers
`reset_input_buffer()`, which also discards the valid frame. -/
theorem resync_counterexample :
    parse ([0xaa, 0x04, 0x00, 0x00, 0x0f] ++ crc16bytes [0xaa, 0x04, 0x00, 0x00, 0x0f]) 7 =
      some ⟨0xaa, 0x04, 0x00, 0x00, 0x0f, []⟩ ∧
    workerSideRun ([0xff, 0xff, 0xaa, 0x04, 0x00, 0x00, 0x0f] ++
      crc16bytes [0xaa, 0x04, 0x00, 0x00, 0x0f]) = ([], []) := by
  decide

/-- C3 amended: when the buffer starts with a byte that is neither
the escape `0x1B` nor the preamble `0xAA`, the worker flushes the
whole input buffer of that side: neither the garbage byte nor
anything after it (valid frames included) is forwarded to side B,
and the decoder is not invoked at all. -/
theorem resync_flush (b : Nat) (rest : List Nat) (h1 : b ≠ 0x1b) (h2 : b ≠ 0xaa) :
    workerSideRun (b :: rest) = ([], []) := by
  simp [workerSideRun, workerSideSteps, h1, h2]

/-- C3 witness: the flush at the concrete garbage-prefixed stream of
scenario S5. -/
theorem resync_flush_witness :
    workerSideRun (0xff :: ([0xff, 0xaa, 0x04, 0x00, 0x00, 0x0f] ++
      crc16bytes [0xaa, 0x04, 0x00, 0x00, 0x0f])) = ([], []) :=
  resync_flush 0xff _ (by decide) (by decide)

/-- C5: decoding a parsed heater status frame (device `0x04`, id2
`0x0F`, 10-byte payload) stores `status1 = p[0]`, `status2 = p[1]`,
`errors = p[2]`, `heater_temperature = p[3]`,
`external_temperature = p[4]`, `battery_voltage = p[6]/10` and
`flame_temperature` = the 16-bit big-endian value of `p[7..9]`, each
paired with the processing time `t`. -/
theorem heater_status_decode (s : EngineState) (side : Bool) (t : ℚ)
    (frame : List Nat) (m : Message)
    (hp : parse frame 7 = some m) (hd : m.device = 0x04) (hid : m.msg_id2 = 0x0f)
    (hlen : m.payload.length = 10) :
    (process_message s t frame side).heater_status1 = (some (m.payload.getD 0 0), some t) ∧
    (process_message s t frame side).heater_status2 = (some (m.payload.getD 1 0), some t) ∧
    (process_message s t frame side).heater_errors = (some (m.payload.getD 2 0), some t) ∧
    (process_message s t frame side).heater_temperature = (some (m.payload.getD 3 0), some t) ∧
    (process_message s t frame side).external_temperature = (some (m.payload.getD 4 0), some t) ∧
    (process_message s t frame side).battery_voltage = (some ((m.payload.getD 6 0 : ℚ) / 10), some t) ∧
    (process_message s t frame side).flame_temperature =
      (some (intFromBytesBE ((m.payload.drop 7).take 2)), some t) := by
  simp [process_message, hp, hd, hid]
  split_ifs <;>
    simp [dispatch04, hid, hlen]

/-- C5 witness: the decode at the concrete scenario-S2 frame with
payload `03 00 00 18 05 00 8C 01 2C 00`; the resulting register
values are 3, 0, 0, 24, 5, 14 and 300. -/
theorem heater_status_decode_witness :
    (process_message (initial_state 0) 5
        ([0xaa, 0x04, 0x0a, 0x00, 0x0f, 0x03, 0x00, 0x00, 0x18, 0x05, 0x00, 0x8c, 0x01, 0x2c, 0x00] ++
         crc16bytes [0xaa, 0x04, 0x0a, 0x00, 0x0f, 0x03, 0x00, 0x00, 0x18, 0x05, 0x00, 0x8c, 0x01, 0x2c, 0x00])
        true).heater_status1 = (some 3, some 5) ∧
    (process_message (initial_state 0) 5
        ([0xaa, 0x04, 0x0a, 0x00, 0x0f, 0x03, 0x00, 0x00, 0x18, 0x05, 0x00, 0x8c, 0x01, 0x2c, 0x00] ++
         crc16bytes [0xaa, 0x04, 0x0a, 0x00, 0x0f, 0x03, 0x00, 0x00, 0x18, 0x05, 0x00, 0x8c, 0x01, 0x2c, 0x00])
        true).heater_status2 = (some 0, some 5) ∧
    (process_message (initial_state 0) 5
        ([0xaa, 0x04, 0x0a, 0x00, 0x0f, 0x03, 0x00, 0x00, 0x18, 0x05, 0x00, 0x8c, 0x01, 0x2c, 0x00] ++
         crc16bytes [0xaa, 0x04, 0x0a, 0x00, 0x0f, 0x03, 0x00, 0x00, 0x18, 0x05, 0x00, 0x8c, 0x01, 0x2c, 0x00])
        true).heater_errors = (some 0, some 5) ∧
    (process_message (initial_state 0) 5
        ([0xaa, 0x04, 0x0a, 0x00, 0x0f, 0x03, 0x00, 0x00, 0x18, 0x05, 0x00, 0x8c, 0x01, 0x2c, 0x00] ++
         crc16bytes [0xaa, 0x04, 0x0a, 0x00, 0x0f, 0x03, 0x00, 0x00, 0x18, 0x05, 0x00, 0x8c, 0x01, 0x2c, 0x00])
        true).heater_temperature = (some 24, some 5) ∧
    (process_message (initial_state 0) 5
        ([0xaa, 0x04, 0x0a, 0x00, 0x0f, 0x03, 0x00, 0x00, 0x18, 0x05, 0x00, 0x8c, 0x01, 0x2c, 0x00] ++
         crc16bytes [0xaa, 0x04, 0x0a, 0x00, 0x0f, 0x03, 0x00, 0x00, 0x18, 0x05, 0x00, 0x8c, 0x01, 0x2c, 0x00])
        true).external_temperature = (some 5, some 5) ∧
    (process_message (initial_state 0) 5
        ([0xaa, 0x04, 0x0a, 0x00, 0x0f, 0x03, 0x00, 0x00, 0x18, 0x05, 0x00, 0x8c, 0x01, 0x2c, 0x00] ++
         crc16bytes [0xaa, 0x04, 0x0a, 0x00, 0x0f, 0x03, 0x00, 0x00, 0x18, 0x05, 0x00, 0x8c, 0x01, 0x2c, 0x00])
        true).battery_voltage = (some 14, some 5) ∧
    (process_message (initial_state 0) 5
        ([0xaa, 0x04, 0x0a, 0x00, 0x0f, 0x03, 0x00, 0x00, 0x18, 0x05, 0x00, 0x8c, 0x01, 0x2c, 0x00] ++
         crc16bytes [0xaa, 0x04, 0x0a, 0x00, 0x0f, 0x03, 0x00, 0x00, 0x18, 0x05, 0x00, 0x8c, 0x01, 0x2c, 0x00])
        true).flame_temperature = (some 300, some 5) := by
  have h := heater_status_decode (initial_state 0) true 5
    ([0xaa, 0x04, 0x0a, 0x00, 0x0f, 0x03, 0x00, 0x00, 0x18, 0x05, 0x00, 0x8c, 0x01, 0x2c, 0x00] ++
     crc16bytes [0xaa, 0x04, 0x0a, 0x00, 0x0f, 0x03, 0x00, 0x00, 0x18, 0x05, 0x00, 0x8c, 0x01, 0x2c, 0x00])
    ⟨0xaa, 0x04, 0x0a, 0x00, 0x0f, [0x03, 0x00, 0x00, 0x18, 0x05, 0x00, 0x8c, 0x01, 0x2c, 0x00]⟩
    (by decide) (by decide) (by decide) (by decide)
  refine ⟨h.1, h.2.1, h.2.2.1, h.2.2.2.1, h.2.2.2.2.1, ?_, ?_⟩
  · rw [h.2.2.2.2.2.1]
    norm_num
  · rw [h.2.2.2.2.2.2]
    rfl

/-- Helper: the controller-branch dispatch never touches the
write-lock deadline. -/
theorem dispatch03_lock_eq (s : EngineState) (t : ℚ) (m : Message) :
    (dispatch03 s t m).write_lock_timer = s.write_lock_timer := by
  unfold dispatch03
  split_ifs <;> rfl

/-- Helper: the diagnostic-branch dispatch never touches the
write-lock deadline. -/
theorem dispatch02_lock_eq (s : EngineState) (t : ℚ) (m : Message) :
    (dispatch02 s t m).write_lock_timer = s.write_lock_timer := by
  unfold dispatch02
  split_ifs <;> rfl

/-- Helper: the heater-branch dispatch never touches the write-lock
deadline. -/
theorem dispatch04_lock_eq (s : EngineState) (t : ℚ) (m : Message) :
    (dispatch04 s t m).write_lock_timer = s.write_lock_timer := by
  unfold dispatch04
  split_ifs <;> rfl

/-- Helper: processing any parsed controller-origin frame at time `t`
arms the write-lock deadline to `t + 10`. -/
theorem controller_arms_lock (s : EngineState) (t : ℚ) (msg : List Nat) (side : Bool)
    (m : Message) (hp : parse msg 7 = some m) (hd : m.device = 0x03) :
    (process_message s t msg side).write_lock_timer = t + 10 := by
  simp [process_message, hp, hd]
  split_ifs <;> simp [dispatch03_lock_eq]

/-- Helper: processing any parsed heater-origin frame at time `t`
resets the write-lock deadline to `t`. -/
theorem heater_clears_lock (s : EngineState) (t : ℚ) (msg : List Nat) (side : Bool)
    (m : Message) (hp : parse msg 7 = some m) (hd : m.device = 0x04) :
    (process_message s t msg side).write_lock_timer = t := by
  simp [process_message, hp, hd]
  split_ifs <;> simp [dispatch04_lock_eq]

/-- Helper: processing a message that is not a parsed heater frame
either leaves the write-lock deadline unchanged or arms it to
`t + 10`. -/
theorem process_message_lock_cases (s : EngineState) (t : ℚ) (msg : List Nat) (side : Bool)
    (h : heaterRecv (.recv side msg) = false) :
    (process_message s t msg side).write_lock_timer = s.write_lock_timer ∨
    (process_message s t msg side).write_lock_timer = t + 10 := by
  cases hp : parse msg 7 with
  | none => left; simp [process_message, hp]
  | some m =>
    simp only [heaterRecv, hp] at h
    simp at h
    simp [process_message, hp]
    split_ifs <;>
      simp_all [dispatch02_lock_eq, dispatch03_lock_eq, dispatch04_lock_eq]

/-- Helper: the injection block pops and writes only when the current
time has reached the write-lock deadline. -/
theorem injectWrites_guard (s : EngineState) (t : ℚ) (h : injectWrites s t ≠ []) :
    s.write_lock_timer ≤ t := by
  by_cases hg : s.send_to_heater ≠ [] ∧ s.write_lock_timer ≤ t
  · exact hg.2
  · exfalso
    apply h
    unfold injectWrites injectDispatch
    simp [hg]

/-- Helper: the injection block either leaves the write-lock deadline
unchanged or re-arms it to `t + 10`. -/
theorem injectState_lock_cases (s : EngineState) (t : ℚ) :
    (injectState s t).write_lock_timer = s.write_lock_timer ∨
    (injectState s t).write_lock_timer = t + 10 := by
  unfold injectState injectDispatch
  split_ifs with hg
  · cases hh : s.ser_heater <;> simp
  · simp

/-- Helper: once the write-lock deadline is at least `c + 10`, any
sequence of worker events, none of which observes a parsed heater
frame and all at times at least `c`, keeps the deadline at least
`c + 10`. -/
theorem lock_deadline_preserved (c : ℚ) (es : List (ℚ × WEvent)) :
    ∀ s : EngineState, (∀ e ∈ es, c ≤ e.1 ∧ heaterRecv e.2 = false) →
      c + 10 ≤ s.write_lock_timer →
      c + 10 ≤ (runEvents s es).write_lock_timer := by
  induction es with
  | nil => intro s _ h; exact h
  | cons e rest ih =>
    intro s hall h
    obtain ⟨het, hh⟩ := hall e (List.mem_cons_self ..)
    have hrest := fun x hx => hall x (List.mem_cons_of_mem _ hx)
    rw [runEvents, List.foldl_cons]
    apply ih _ hrest
    obtain ⟨t, ev⟩ := e
    cases ev with
    | recv side frame =>
      rcases process_message_lock_cases s t frame side hh with h1 | h1 <;>
        · show c + 10 ≤ (process_message s t frame side).write_lock_timer
          rw [h1]
          linarith
    | inject =>
      rcases injectState_lock_cases s t with h1 | h1 <;>
        · show c + 10 ≤ (injectState s t).write_lock_timer
          rw [h1]
          linarith

/-- C4: the write-lock protocol.  (i) the injection block writes a
queued host frame only when the current time has reached the
write-lock deadline; (ii) processing a parsed controller-origin frame
at time `t` sets the deadline to `t + 10`; (iii) processing a parsed
heater-origin frame at time `t` sets the deadline to `t`; (iv) after
a controller-origin frame is observed at time `tc`, no host frame is
written by the injection block at any time `tw` before `tc + 10`
unless a parsed heater-origin frame was observed in between. -/
theorem write_lock_protocol
    (s sc : EngineState) (side : Bool) (t tc tw : ℚ)
    (cf hf : List Nat) (cm hm : Message) (mid : List (ℚ × WEvent))
    (hcp : parse cf 7 = some cm) (hcd : cm.device = 0x03)
    (hhp : parse hf 7 = some hm) (hhd : hm.device = 0x04)
    (hmid : ∀ e ∈ mid, tc ≤ e.1 ∧ heaterRecv e.2 = false) :
    (injectWrites s t ≠ [] → s.write_lock_timer ≤ t) ∧
    (process_message s t cf side).write_lock_timer = t + 10 ∧
    (process_message s t hf side).write_lock_timer = t ∧
    (injectWrites (runEvents (process_message sc tc cf side) mid) tw ≠ [] →
      tc + 10 ≤ tw) := by
  refine ⟨injectWrites_guard s t,
    controller_arms_lock s t cf side cm hcp hcd,
    heater_clears_lock s t hf side hm hhp hhd, ?_⟩
  intro hw
  have h0 : tc + 10 ≤ (process_message sc tc cf side).write_lock_timer := by
    rw [controller_arms_lock sc tc cf side cm hcp hcd]
  have h1 := lock_deadline_preserved tc mid (process_message sc tc cf side) hmid h0
  have h2 := injectWrites_guard _ tw hw
  linarith

/-- C4 witness: the write-lock protocol at a concrete instance: the
ask-status frame of the controller, the status-ack of the heater, an
empty event gap, `t = 0`, `tc = 0`, `tw = 20`. -/
theorem write_lock_protocol_witness :
    (injectWrites (initial_state 0) 0 ≠ [] → (initial_state 0).write_lock_timer ≤ 0) ∧
    (process_message (initial_state 0) 0
      ([0xaa, 0x03, 0x00, 0x00, 0x0f] ++ crc16bytes [0xaa, 0x03, 0x00, 0x00, 0x0f])
      true).write_lock_timer = 0 + 10 ∧
    (process_message (initial_state 0) 0
      ([0xaa, 0x04, 0x00, 0x00, 0x0f] ++ crc16bytes [0xaa, 0x04, 0x00, 0x00, 0x0f])
      true).write_lock_timer = 0 ∧
    (injectWrites (runEvents (process_message (initial_state 0) 0
        ([0xaa, 0x03, 0x00, 0x00, 0x0f] ++ crc16bytes [0xaa, 0x03, 0x00, 0x00, 0x0f])
        true) []) 20 ≠ [] → (0 : ℚ) + 10 ≤ 20) :=
  write_lock_protocol (initial_state 0) (initial_state 0) true 0 0 20
    ([0xaa, 0x03, 0x00, 0x00, 0x0f] ++ crc16bytes [0xaa, 0x03, 0x00, 0x00, 0x0f])
    ([0xaa, 0x04, 0x00, 0x00, 0x0f] ++ crc16bytes [0xaa, 0x04, 0x00, 0x00, 0x0f])
    ⟨0xaa, 0x03, 0x00, 0x00, 0x0f, []⟩ ⟨0xaa, 0x04, 0x00, 0x00, 0x0f, []⟩ []
    (by decide) (by decide) (by decide) (by decide)
    (by intro e he; exact absurd he (List.not_mem_nil e))

/-- C6: duplicate injection.  `turn_on_heater(mode=4, setpoint=0x0F,
ventilation=0, power=6)` appends exactly two identical adjacent
frames, built with device `0x03`, id2 `0x01` and payload
`FF FF 04 0F 00 06`; `change_settings` and `turn_on_ventilation`
likewise enqueue their frame twice, while `asks_for_status`,
`asks_for_settings`, `diagnostic_on` and `diagnostic_off` enqueue
exactly once.  The byte-range hypotheses mirror the `to_bytes(1, ...)`
calls in the source. -/
theorem duplicate_injection (s : EngineState) (t : ℚ)
    (mode setpoint ventilation power : Nat)
    (hbm : mode < 256) (hbs : setpoint < 256) (hbv : ventilation < 256) (hbp : power < 256) :
    (∃ msg, build 0x03 0x01 0x00 [0xff, 0xff, 0x04, 0x0f, 0x00, 0x06] = some msg ∧
      (turn_on_heater s t 0x04 0x0f 0x00 0x06 none).send_to_heater =
        s.send_to_heater ++ [msg, msg]) ∧
    (∃ msg, build 0x03 0x02 0x00 [0xff, 0xff, mode, setpoint, ventilation, power] = some msg ∧
      (change_settings s t mode setpoint ventilation power none).send_to_heater =
        s.send_to_heater ++ [msg, msg]) ∧
    (∃ msg, build 0x03 0x23 0x00 [0xff, 0xff, power, 0x0f] = some msg ∧
      (turn_on_ventilation s t power none).send_to_heater =
        s.send_to_heater ++ [msg, msg]) ∧
    (∃ msg, build 0x03 0x0f 0x00 [] = some msg ∧
      (asks_for_status s).send_to_heater = s.send_to_heater ++ [msg]) ∧
    (∃ msg, build 0x03 0x02 0x00 [] = some msg ∧
      (asks_for_settings s).send_to_heater = s.send_to_heater ++ [msg]) ∧
    (∃ msg, build 0x03 0x07 0x00 [0x01] = some msg ∧
      (diagnostic_on s).send_to_heater = s.send_to_heater ++ [msg]) ∧
    (∃ msg, build 0x03 0x07 0x00 [0x00] = some msg ∧
      (diagnostic_off s).send_to_heater = s.send_to_heater ++ [msg]) := by
  exact ⟨⟨_, rfl, rfl⟩, ⟨_, rfl, rfl⟩, ⟨_, rfl, rfl⟩, ⟨_, rfl, rfl⟩,
    ⟨_, rfl, rfl⟩, ⟨_, rfl, rfl⟩, ⟨_, rfl, rfl⟩⟩

/-- C6 witness: the duplicate-injection statement at the empty
initial queue and concrete byte arguments. -/
theorem duplicate_injection_witness :
    (∃ msg, build 0x03 0x01 0x00 [0xff, 0xff, 0x04, 0x0f, 0x00, 0x06] = some msg ∧
      (turn_on_heater (initial_state 0) 0 0x04 0x0f 0x00 0x06 none).send_to_heater =
        (initial_state 0).send_to_heater ++ [msg, msg]) ∧
    (∃ msg, build 0x03 0x02 0x00 [0xff, 0xff, 0x04, 0x0f, 0x00, 0x06] = some msg ∧
      (change_settings (initial_state 0) 0 0x04 0x0f 0x00 0x06 none).send_to_heater =
        (initial_state 0).send_to_heater ++ [msg, msg]) ∧
    (∃ msg, build 0x03 0x23 0x00 [0xff, 0xff, 0x06, 0x0f] = some msg ∧
      (turn_on_ventilation (initial_state 0) 0 0x06 none).send_to_heater =
        (initial_state 0).send_to_heater ++ [msg, msg]) ∧
    (∃ msg, build 0x03 0x0f 0x00 [] = some msg ∧
      (asks_for_status (initial_state 0)).send_to_heater =
        (initial_state 0).send_to_heater ++ [msg]) ∧
    (∃ msg, build 0x03 0x02 0x00 [] = some msg ∧
      (asks_for_settings (initial_state 0)).send_to_heater =
        (initial_state 0).send_to_heater ++ [msg]) ∧
    (∃ msg, build 0x03 0x07 0x00 [0x01] = some msg ∧
      (diagnostic_on (initial_state 0)).send_to_heater =
        (initial_state 0).send_to_heater ++ [msg]) ∧
    (∃ msg, build 0x03 0x07 0x00 [0x00] = some msg ∧
      (diagnostic_off (initial_state 0)).send_to_heater =
        (initial_state 0).send_to_heater ++ [msg]) :=
  duplicate_injection (initial_state 0) 0 0x04 0x0f 0x00 0x06
    (by decide) (by decide) (by decide) (by decide)

/-- C7 counterexample: with `status1 = 4` stored, the text returned
is the misspelled `shuting down` of the source, not the
`shutting down` of the claim. -/
theorem status_text_counterexample :
    get_heater_status_text { initial_state 0 with heater_status1 := (some 4, some 0) } =
      "shuting down" ∧
    get_heater_status_text { initial_state 0 with heater_status1 := (some 4, some 0) } ≠
      "shutting down" := by
  decide

/-- C7 amended: for every stored `status1` value in `{0, 1, 2, 3, 4}`
the text follows the source table
`{0: heater off, 1: starting, 2: warming up, 3: running,
4: shuting down}` (entry 4 as misspelled in the source). -/
theorem status_text_table (s : EngineState) (v : Nat) (ts : Option ℚ)
    (h : s.heater_status1 = (some v, ts)) (hv : v ∈ [0, 1, 2, 3, 4]) :
    get_heater_status_text s =
      ["heater off", "starting", "warming up", "running", "shuting down"].getD v "" := by
  simp only [get_heater_status_text, h]
  fin_cases hv <;> rfl

/-- C7 witness: the table at the stored value 3. -/
theorem status_text_table_witness :
    get_heater_status_text { initial_state 0 with heater_status1 := (some 3, some 0) } =
      ["heater off", "starting", "warming up", "running", "shuting down"].getD 3 "" :=
  status_text_table { initial_state 0 with heater_status1 := (some 3, some 0) } 3 (some 0)
    rfl (by decide)

/-- C8: `get_heater_timer` reads the never-assigned attribute
`__heater` (line 467, `self.__heater.timer`), so every call raises
`AttributeError` instead of returning the auto-off deadline that
`set_heater_timer` stores as `now + minutes * 60`. -/
theorem get_heater_timer_raises (s : EngineState) (t m : ℚ) :
    get_heater_timer (set_heater_timer s t m) = .error "AttributeError" ∧
    (set_heater_timer s t m).heater_timer = some (t + m * 60) := by
  constructor
  · unfold get_heater_timer
    rw [if_neg (by decide)]
  · rfl

/-- C9 counterexample: with one queued frame, the heater side bound
and the write-lock expired, the injection block pops the frame and
its only write attempt raises; the frame ends up in neither the
queue nor any successful delivery — it is lost. -/
theorem queue_loss_counterexample :
    (injectDispatch { initial_state 0 with send_to_heater := [[0x01]], ser_heater := some true }
        1 .exn .exn).1.send_to_heater = [] ∧
    (injectDispatch { initial_state 0 with send_to_heater := [[0x01]], ser_heater := some true }
        1 .exn .exn).2 = [([0x01], .exn)] ∧
    ((injectDispatch { initial_state 0 with send_to_heater := [[0x01]], ser_heater := some true }
        1 .exn .exn).2.filter (fun a => a.2 == WriteOutcome.ok)) = [] := by
  decide

/-- C9 amended: a frame leaves the injection queue only by being
handed to a transport write attempt in the same worker iteration;
after one injection step every previously queued frame is either
still in the queue or appears among the write attempts — but the
attempt may fail, in which case the frame is discarded rather than
re-queued. -/
theorem queue_frame_conservation (s : EngineState) (t : ℚ) (o1 o2 : WriteOutcome)
    (f : List Nat) (hf : f ∈ s.send_to_heater) :
    f ∈ (injectDispatch s t o1 o2).1.send_to_heater ∨
    f ∈ (injectDispatch s t o1 o2).2.map Prod.fst := by
  unfold injectDispatch
  split_ifs with hg
  · obtain ⟨hne, hle⟩ := hg
    cases hq : s.send_to_heater with
    | nil => exact absurd hq hne
    | cons hd tl =>
      rw [hq] at hf
      rcases List.mem_cons.mp hf with h | h
      · right
        cases hh : s.ser_heater <;> simp [hq, h]
      · left
        cases hh : s.ser_heater <;> simp [hq, h]
  · left
    simpa using hf

/-- C9 witness: conservation at a concrete one-frame queue with a
successful write. -/
theorem queue_frame_conservation_witness :
    [0x02] ∈ (injectDispatch { initial_state 0 with send_to_heater := [[0x02]] }
        1 .ok .ok).1.send_to_heater ∨
    [0x02] ∈ (injectDispatch { initial_state 0 with send_to_heater := [[0x02]] }
        1 .ok .ok).2.map Prod.fst :=
  queue_frame_conservation { initial_state 0 with send_to_heater := [[0x02]] }
    1 .ok .ok [0x02] (by decide)

/-- C10: for every stored `status1` outside the table keys 0-4 —
including the initial `None` before any status frame was decoded —
`get_heater_status_text` returns `unknown status` without failing. -/
theorem status_text_unknown (s : EngineState) (t0 : ℚ)
    (h : ∀ k ∈ [0, 1, 2, 3, 4], s.heater_status1.1 ≠ some k) :
    get_heater_status_text s = "unknown status" ∧
    get_heater_status_text (initial_state t0) = "unknown status" := by
  refine ⟨?_, rfl⟩
  unfold get_heater_status_text
  rcases hv : s.heater_status1.1 with _ | v
  · rfl
  · rcases v with _ | _ | _ | _ | _ | v
    · exact absurd hv (h 0 (by decide))
    · exact absurd hv (h 1 (by decide))
    · exact absurd hv (h 2 (by decide))
    · exact absurd hv (h 3 (by decide))
    · exact absurd hv (h 4 (by decide))
    · rfl

/-- C10 witness: the fallback at the stored value 7 (not a table
key). -/
theorem status_text_unknown_witness :
    get_heater_status_text { initial_state 0 with heater_status1 := (some 7, some 0) } =
      "unknown status" ∧
    get_heater_status_text (initial_state 0) = "unknown status" :=
  status_text_unknown { initial_state 0 with heater_status1 := (some 7, some 0) } 0
    (by decide)

/-- C2 counterexample: the ask-status frame built by the code does
not carry the CRC bytes `3F B5` the claim states; the CRC-16 of
`AA 03 00 00 0F` computed by `crc16` is not `0x3FB5`. -/
theorem build_status_crc_counterexample :
    build 0x03 0x0f 0x00 [] ≠ some [0xaa, 0x03, 0x00, 0x00, 0x0f, 0x3f, 0xb5] ∧
    crc16bytes [0xaa, 0x03, 0x00, 0x00, 0x0f] ≠ [0x3f, 0xb5] := by
  decide

/-- C2 amended: `build(device=0x03, msg_id2=0x0F, msg_id1=0x00,
payload=b"")` returns exactly `AA 03 00 00 0F 58 7C`: the CRC-16
(Modbus polynomial `0xA001`, init `0xFFFF`, LSB-first) of
`AA 03 00 00 0F` is `0x587C`, serialized big-endian as the two wire
bytes `58 7C`. -/
theorem build_status_crc :
    build 0x03 0x0f 0x00 [] = some [0xaa, 0x03, 0x00, 0x00, 0x0f, 0x58, 0x7c] ∧
    crc16bytes [0xaa, 0x03, 0x00, 0x00, 0x0f] = [0x58, 0x7c] ∧
    crc16 [0xaa, 0x03, 0x00, 0x00, 0x0f] = 0x587c := by
  decide
